import Mathlib

set_option maxRecDepth 8000

/-!
Verification development for the `site-metrics/advanced-metrics.py`
textbook analyzer.  The Python source is shallowly embedded: every
regular-expression substitution of `TextbookAnalyzer._count_words` and
friends is rendered as a structurally recursive scanner over `List Char`
that reproduces the left-to-right, non-overlapping matching discipline of
`re.sub` / `re.findall`, file-system trees become an inductive type, the
YAML configuration becomes an inductive value type, and every `try/except`
becomes an explicit `Except`/`Option` case split.
-/

/-- Whitespace class of the regular expressions (`\s`) and of
`str.split()` / `str.strip()`, restricted to the ASCII range in which all
inputs of this development live: space, tab, newline, carriage return,
vertical tab and form feed. -/
def isPySpace (c : Char) : Bool :=
  c = ' ' || c = '\t' || c = '\n' || c = '\r' || c.toNat = 11 || c.toNat = 12

/-- Character class `[a-zA-Z0-9]` used by the code-fence counting pattern. -/
def isAlnum (c : Char) : Bool :=
  ('a' ≤ c && c ≤ 'z') || ('A' ≤ c && c ≤ 'Z') || ('0' ≤ c && c ≤ '9')

/-- The backtick character (code point 96). -/
def tickChar : Char := Char.ofNat 96

/-- Decides whether the first list is a prefix of the second. -/
def isPre : List Char → List Char → Bool
  | [], _ => true
  | _ :: _, [] => false
  | a :: as, b :: bs => (a = b) && isPre as bs

/-- Index of the first occurrence of the pattern `pat` as a contiguous
sublist, scanning left to right (the scanning order of the `re` module). -/
def findPat (pat : List Char) : List Char → Option Nat
  | [] => if pat.isEmpty then some 0 else none
  | s@(_ :: rest) => if isPre pat s then some 0 else (findPat pat rest).map (· + 1)

/-- Decides whether `suf` is a suffix of `s` (used for `glob` patterns of
the form `*.ext`, which select names ending in the extension). -/
def endsWithL (suf s : List Char) : Bool := isPre suf.reverse s.reverse

/-- Removal of the YAML front matter: `re.sub(r'\A---[\s\S]*?---', '', content)`.
The pattern is anchored at the start of the string, so at most one
substitution happens; the non-greedy middle makes the match end at the
first later occurrence of `---`.  The delimiters are plain substrings:
they need not occupy whole lines. -/
def stripFrontMatter (s : List Char) : List Char :=
  if isPre ['-', '-', '-'] s then
    match findPat ['-', '-', '-'] (s.drop 3) with
    | some k => s.drop (3 + k + 3)
    | none => s
  else s

mutual

/-- Scanner for `re.sub(r'```[\s\S]*?```', '', content)`, outside a fence:
emits characters until a triple backtick opens a fence. -/
def fenceOut : List Char → List Char
  | [] => []
  | [c] => [c]
  | [c, c2] => [c, c2]
  | c :: c2 :: c3 :: rest =>
    if c = tickChar && c2 = tickChar && c3 = tickChar then fenceIn rest []
    else c :: fenceOut (c2 :: c3 :: rest)

/-- Inside a fence opened by three backticks: drops characters until the
first closing triple backtick (non-greedy match); if the input ends before
a closer, the regular expression never matched, so the consumed text (held
reversed in `acc`) is restored verbatim. -/
def fenceIn : List Char → List Char → List Char
  | [], acc => tickChar :: tickChar :: tickChar :: acc.reverse
  | [c], acc => tickChar :: tickChar :: tickChar :: acc.reverse ++ [c]
  | [c, c2], acc => tickChar :: tickChar :: tickChar :: acc.reverse ++ [c, c2]
  | c :: c2 :: c3 :: rest, acc =>
    if c = tickChar && c2 = tickChar && c3 = tickChar then fenceOut rest
    else fenceIn (c2 :: c3 :: rest) (c :: acc)

end

mutual

/-- Scanner for `re.sub(r'`[^`]*`', '', content)`, outside an inline code
span. -/
def inlineOut : List Char → List Char
  | [] => []
  | c :: rest => if c = tickChar then inlineIn rest [] else c :: inlineOut rest

/-- Inside an inline code span: `[^`]*` cannot pass a backtick, so the span
closes at the first backtick; with no closing backtick the match fails and
the consumed text is restored. -/
def inlineIn : List Char → List Char → List Char
  | [], acc => tickChar :: acc.reverse
  | c :: rest, acc => if c = tickChar then inlineOut rest else inlineIn rest (c :: acc)

end

mutual

/-- Scanner for `re.sub(r'<[^>]+>', '', content)`, outside a tag. -/
def tagOut : List Char → List Char
  | [] => []
  | c :: rest => if c = '<' then tagIn rest [] else c :: tagOut rest

/-- After `<`: accumulates non-`>` characters.  The class `[^>]+` needs at
least one character, so `<>` is not a match and both characters are kept;
with no closing `>` the consumed text is restored. -/
def tagIn : List Char → List Char → List Char
  | [], acc => '<' :: acc.reverse
  | c :: rest, acc =>
    if c = '>' then
      match acc with
      | [] => '<' :: '>' :: tagOut rest
      | _ :: _ => tagOut rest
    else tagIn rest (c :: acc)

end

/-- The scheme prefix already consumed by the URL scanner: `https` when
the flag is set, otherwise `http`. -/
def urlPref (b : Bool) : List Char :=
  if b then ['h', 't', 't', 'p', 's'] else ['h', 't', 't', 'p']

mutual

/-- Scanner for `re.sub(r'http[s]?://\S+', '', content)`.  A match needs
the literal scheme, `://`, and at least one non-whitespace character; the
greedy `\S+` then extends to the next whitespace.  On a failed partial
match the consumed characters are emitted unchanged (none of them except
the leading `h` can start a new match) and scanning resumes. -/
def urlOut : List Char → List Char
  | [] => []
  | c :: rest => if c = 'h' then urlH rest else c :: urlOut rest

/-- URL scanner state: consumed `h`. -/
def urlH : List Char → List Char
  | [] => ['h']
  | c :: rest =>
    if c = 't' then urlHT rest
    else if c = 'h' then 'h' :: urlH rest
    else 'h' :: c :: urlOut rest

/-- URL scanner state: consumed `ht`. -/
def urlHT : List Char → List Char
  | [] => ['h', 't']
  | c :: rest =>
    if c = 't' then urlHTT rest
    else if c = 'h' then 'h' :: 't' :: urlH rest
    else 'h' :: 't' :: c :: urlOut rest

/-- URL scanner state: consumed `htt`. -/
def urlHTT : List Char → List Char
  | [] => ['h', 't', 't']
  | c :: rest =>
    if c = 'p' then urlHTTP rest
    else if c = 'h' then 'h' :: 't' :: 't' :: urlH rest
    else 'h' :: 't' :: 't' :: c :: urlOut rest

/-- URL scanner state: consumed `http`. -/
def urlHTTP : List Char → List Char
  | [] => ['h', 't', 't', 'p']
  | c :: rest =>
    if c = 's' then urlHTTPS rest
    else if c = ':' then urlColon false rest
    else if c = 'h' then 'h' :: 't' :: 't' :: 'p' :: urlH rest
    else 'h' :: 't' :: 't' :: 'p' :: c :: urlOut rest

/-- URL scanner state: consumed `https`. -/
def urlHTTPS : List Char → List Char
  | [] => ['h', 't', 't', 'p', 's']
  | c :: rest =>
    if c = ':' then urlColon true rest
    else if c = 'h' then 'h' :: 't' :: 't' :: 'p' :: 's' :: urlH rest
    else 'h' :: 't' :: 't' :: 'p' :: 's' :: c :: urlOut rest

/-- URL scanner state: consumed the scheme and `:`. -/
def urlColon : Bool → List Char → List Char
  | b, [] => urlPref b ++ [':']
  | b, c :: rest =>
    if c = '/' then urlSl1 b rest
    else if c = 'h' then urlPref b ++ ':' :: urlH rest
    else urlPref b ++ ':' :: c :: urlOut rest

/-- URL scanner state: consumed the scheme and `:/`. -/
def urlSl1 : Bool → List Char → List Char
  | b, [] => urlPref b ++ [':', '/']
  | b, c :: rest =>
    if c = '/' then urlSl2 b rest
    else if c = 'h' then urlPref b ++ ':' :: '/' :: urlH rest
    else urlPref b ++ ':' :: '/' :: c :: urlOut rest

/-- URL scanner state: consumed the scheme and `://`; the match succeeds
only if a non-whitespace character follows (`\S+` is one-or-more). -/
def urlSl2 : Bool → List Char → List Char
  | b, [] => urlPref b ++ [':', '/', '/']
  | b, c :: rest =>
    if isPySpace c then urlPref b ++ ':' :: '/' :: '/' :: c :: urlOut rest
    else urlTail rest

/-- URL scanner state: inside the matched `\S+`; consumes until the next
whitespace. -/
def urlTail : List Char → List Char
  | [] => []
  | c :: rest => if isPySpace c then c :: urlOut rest else urlTail rest

end

mutual

/-- Scanner for `re.sub(r'\s+', ' ', content)`: each maximal whitespace run
becomes a single space. -/
def collapseWS : List Char → List Char
  | [] => []
  | c :: rest => if isPySpace c then ' ' :: skipWS rest else c :: collapseWS rest

/-- Inside a whitespace run whose single replacement space was already
emitted. -/
def skipWS : List Char → List Char
  | [] => []
  | c :: rest => if isPySpace c then skipWS rest else c :: collapseWS rest

end

/-- Python `str.strip()`: removes leading and trailing whitespace. -/
def pyStrip (s : List Char) : List Char :=
  ((s.dropWhile isPySpace).reverse.dropWhile isPySpace).reverse

mutual

/-- Number of tokens produced by Python `str.split()` (split on whitespace
runs, no empty tokens): counts the maximal non-whitespace runs. -/
def countTokens : List Char → Nat
  | [] => 0
  | c :: rest => if isPySpace c then countTokens rest else 1 + inTok rest

/-- Inside a token: waits for whitespace. -/
def inTok : List Char → Nat
  | [] => 0
  | c :: rest => if isPySpace c then countTokens rest else inTok rest

end

/-- The word count of one document's content, exactly the substitution
chain of `TextbookAnalyzer._count_words`: front matter, fenced code
blocks, inline code, tags, URLs, whitespace collapsing, strip, split. -/
def countWordsContent (s : List Char) : Nat :=
  countTokens (pyStrip (collapseWS (urlOut (tagOut (inlineOut (fenceOut (stripFrontMatter s)))))))

/-- Word count of one document given as a string. -/
def count_words (s : String) : Nat := countWordsContent s.toList

/-- Contribution of one markdown file to the total: a file whose read or
decode failed is caught by the `except` clause and contributes zero. -/
def doc_words : Except String String → Nat
  | .error _ => 0
  | .ok content => count_words content

/-- Total word count over the list of markdown files, in traversal order:
the accumulation `total_words += len(words)` of `_count_words`. -/
def total_words (docs : List (Except String String)) : Nat :=
  (docs.map doc_words).sum

/-- Splits into the newline-terminated lines (without their terminator) and
the trailing unterminated segment. -/
def linesAux : List Char → List (List Char) × List Char
  | [] => ([], [])
  | c :: rest =>
    if c = '\n' then ([] :: (linesAux rest).1, (linesAux rest).2)
    else
      match linesAux rest with
      | (l :: ls, cur) => ((c :: l) :: ls, cur)
      | ([], cur) => ([], c :: cur)

/-- The newline-terminated lines of a text, in order, without terminators;
a final segment lacking a newline is not among them. -/
def linesTerm (s : List Char) : List (List Char) := (linesAux s).1

/-- All lines of a text in the sense of `str.splitlines`: the terminated
lines plus, when non-empty, the trailing unterminated segment. -/
def linesAll (s : List Char) : List (List Char) :=
  match linesAux s with
  | (ls, []) => ls
  | (ls, cur) => ls ++ [cur]

/-- Decides whether `!!!` occurs as a contiguous substring. -/
def hasTriple : List Char → Bool
  | [] => false
  | c :: rest => isPre ['!', '!', '!'] (c :: rest) || hasTriple rest

/-- Decides whether a line begins with `!!!`. -/
def bang3 (l : List Char) : Bool := isPre ['!', '!', '!'] l

mutual

/-- Scanner for `len(re.findall(r'!!!.*?\n', content))` of
`_count_admonitions`: looks for the next `!!!` occurrence. -/
def admScan : List Char → Nat
  | [] => 0
  | [_] => 0
  | [_, _] => 0
  | c :: c2 :: c3 :: rest =>
    if c = '!' && c2 = '!' && c3 = '!' then admLine rest
    else admScan (c2 :: c3 :: rest)

/-- After `!!!`: the non-greedy `.*?\n` cannot cross a newline, so the
match succeeds at the first `\n` of the current line and scanning resumes
after it; if the input ends without a newline the match (and, the
remainder containing no newline, every later one) fails. -/
def admLine : List Char → Nat
  | [] => 0
  | c :: rest => if c = '\n' then 1 + admScan rest else admLine rest

end

/-- Admonition occurrences in one document's content. -/
def countAdmonitionsContent (s : List Char) : Nat := admScan s

/-- Admonition count of one document given as a string. -/
def count_admonitions (s : String) : Nat := countAdmonitionsContent s.toList

mutual

/-- Scanner for `len(re.findall(r'```[a-zA-Z0-9]*\n[\s\S]*?\n```', content))`
of `_count_code_blocks`: outside any candidate, looking for a backtick. -/
def cbOut : List Char → Nat
  | [] => 0
  | c :: rest => if c = tickChar then cbT1 rest else cbOut rest

/-- Code-fence counting state: one backtick seen. -/
def cbT1 : List Char → Nat
  | [] => 0
  | c :: rest => if c = tickChar then cbT2 rest else cbOut rest

/-- Code-fence counting state: two backticks seen. -/
def cbT2 : List Char → Nat
  | [] => 0
  | c :: rest => if c = tickChar then cbT3 rest else cbOut rest

/-- Code-fence counting state: an opening `` ``` `` seen (further backticks
keep the last three as the candidate opener, matching the rescan behavior
of `re.findall` on longer backtick runs). -/
def cbT3 : List Char → Nat
  | [] => 0
  | c :: rest =>
    if c = tickChar then cbT3 rest
    else if c = '\n' then cbBody rest
    else if isAlnum c then cbLang rest
    else cbOut rest

/-- Code-fence counting state: inside the `[a-zA-Z0-9]*` language tag. -/
def cbLang : List Char → Nat
  | [] => 0
  | c :: rest =>
    if c = '\n' then cbBody rest
    else if isAlnum c then cbLang rest
    else if c = tickChar then cbT1 rest
    else cbOut rest

/-- Code-fence counting state: inside the non-greedy body, looking for the
first newline that could begin the `\n``` ` closer. -/
def cbBody : List Char → Nat
  | [] => 0
  | c :: rest => if c = '\n' then cbNl rest else cbBody rest

/-- Code-fence counting state: a body newline seen. -/
def cbNl : List Char → Nat
  | [] => 0
  | c :: rest =>
    if c = tickChar then cbNl1 rest
    else if c = '\n' then cbNl rest
    else cbBody rest

/-- Code-fence counting state: body newline and one backtick seen. -/
def cbNl1 : List Char → Nat
  | [] => 0
  | c :: rest =>
    if c = tickChar then cbNl2 rest
    else if c = '\n' then cbNl rest
    else cbBody rest

/-- Code-fence counting state: body newline and two backticks seen; a third
completes one counted block and scanning resumes after it. -/
def cbNl2 : List Char → Nat
  | [] => 0
  | c :: rest =>
    if c = tickChar then 1 + cbOut rest
    else if c = '\n' then cbNl rest
    else cbBody rest

end

/-- Complete code-block count of one document's content. -/
def countCodeBlocksContent (s : List Char) : Nat := cbOut s

/-- Code-block count of one document given as a string. -/
def count_code_blocks (s : String) : Nat := countCodeBlocksContent s.toList

mutual

/-- Scanner for `len(re.findall(r'^####\s+\S.*$', content, re.MULTILINE))`
of `_count_glossary_terms`, positioned at the start of a line. -/
def glossLineStart : List Char → Nat
  | [] => 0
  | c :: rest =>
    if c = '\n' then glossLineStart rest
    else if c = '#' then glossH1 rest
    else glossSkipLine rest

/-- Glossary state: one `#` of a potential `####` seen at line start. -/
def glossH1 : List Char → Nat
  | [] => 0
  | c :: rest =>
    if c = '#' then glossH2 rest
    else if c = '\n' then glossLineStart rest else glossSkipLine rest

/-- Glossary state: two `#` seen. -/
def glossH2 : List Char → Nat
  | [] => 0
  | c :: rest =>
    if c = '#' then glossH3 rest
    else if c = '\n' then glossLineStart rest else glossSkipLine rest

/-- Glossary state: three `#` seen. -/
def glossH3 : List Char → Nat
  | [] => 0
  | c :: rest =>
    if c = '#' then glossWsStart rest
    else if c = '\n' then glossLineStart rest else glossSkipLine rest

/-- Glossary state: `####` seen; `\s+` needs at least one whitespace
character (a fifth `#` or any other non-whitespace fails the line). -/
def glossWsStart : List Char → Nat
  | [] => 0
  | c :: rest =>
    if isPySpace c then glossWs rest
    else if c = '\n' then glossLineStart rest else glossSkipLine rest

/-- Glossary state: inside the `\s+` run.  The class `\s` includes the
newline, so the run may cross line endings; the first non-whitespace
character satisfies `\S` and completes a counted match, whose `.*$` then
extends to the end of that character's line. -/
def glossWs : List Char → Nat
  | [] => 0
  | c :: rest => if isPySpace c then glossWs rest else 1 + glossSkipLine rest

/-- Glossary state: the current line cannot match (or a match on it was
already counted); skip to the next line start. -/
def glossSkipLine : List Char → Nat
  | [] => 0
  | c :: rest => if c = '\n' then glossLineStart rest else glossSkipLine rest

end

/-- Level-4-heading matches in one glossary content. -/
def countGlossaryContent (s : List Char) : Nat := glossLineStart s

/-- Glossary-term count of one content given as a string. -/
def count_glossary_content (s : String) : Nat := countGlossaryContent s.toList

/-- Shallow model of the values `yaml.safe_load` can return in this code
base: strings stand in for all scalar leaves except `None`, which gets its
own constructor because Python treats it very differently (`bool(None)` is
false, `.get` on it raises, iterating it raises). -/
inductive YVal where
  | null : YVal
  | str : String → YVal
  | list : List YVal → YVal
  | dict : List (String × YVal) → YVal

/-- Python `dict.__getitem__`-style association lookup. -/
def yLookup : List (String × YVal) → String → Option YVal
  | [], _ => none
  | kv :: rest, k => if kv.1 = k then some kv.2 else yLookup rest k

/-- Python truthiness of a parsed value: empty strings and empty
containers and `None` are falsy. -/
def yTruthy : YVal → Bool
  | .null => false
  | .str s => !s.isEmpty
  | .list l => !l.isEmpty
  | .dict kvs => !kvs.isEmpty

/-- Truthiness of a `dict.get` result, `None` (absence) being falsy. -/
def optTruthy : Option YVal → Bool
  | none => false
  | some v => yTruthy v

/-- Python `in` on a parsed value: key membership for mappings, element
equality for sequences, substring for strings; on `None` it raises, which
the model reports as `none`. -/
def pyIn (k : String) : YVal → Option Bool
  | .dict kvs => some (yLookup kvs k).isSome
  | .list l => some (l.any fun v => match v with | .str s => s = k | _ => false)
  | .str s => some (findPat k.toList s.toList).isSome
  | .null => none

mutual

/-- The `get_depth` closure of `_calculate_nav_depth`: a mapping counts one
plus the maximum of `get_depth` over its values (`default=0`); everything
else — including a list of sub-entries — is not a mapping and counts 0. -/
def get_depth : YVal → Nat
  | .dict kvs => 1 + maxValDepths kvs
  | _ => 0

/-- Maximum of `get_depth` over a mapping's values, 0 for no values. -/
def maxValDepths : List (String × YVal) → Nat
  | [] => 0
  | kv :: rest => max (get_depth kv.2) (maxValDepths rest)

end

/-- Maximum of `get_depth` over the top-level entries, 0 if empty. -/
def maxListDepths : List YVal → Nat
  | [] => 0
  | v :: rest => max (get_depth v) (maxListDepths rest)

/-- The body of `_calculate_nav_depth` applied to a navigation list. -/
def calculate_nav_depth (nav : List YVal) : Nat := maxListDepths nav

/-- Python iteration over a parsed value, as `_calculate_nav_depth`
performs on its argument: lists iterate elements, strings iterate their
characters (each a one-character string), mappings iterate their keys, and
`None` raises `TypeError`. -/
def pyIterItems : YVal → Except String (List YVal)
  | .list l => .ok l
  | .str s => .ok (s.toList.map fun c => .str (String.mk [c]))
  | .dict kvs => .ok (kvs.map fun kv => .str kv.1)
  | .null => .error "TypeError: NoneType object is not iterable"

/-- Running `_calculate_nav_depth` on the raw `nav_structure` value.  Its
`max(...)` call is outside every `try`, so a non-iterable value makes the
whole report raise. -/
def calculate_nav_depth_run (nav : YVal) : Except String Nat :=
  (pyIterItems nav).map maxListDepths

/-- The `nav_structure` computed by `_analyze_content_structure`: the
`nav` entry of the parsed configuration, `[]` if the key is absent or the
file fails to open, parse or be a mapping (its `try` catches those). -/
def nav_structure (cfg : Option YVal) : YVal :=
  match cfg with
  | some (.dict kvs) => (yLookup kvs "nav").getD (.list [])
  | _ => .list []

mutual

/-- Modelled from the spec: the intended navigation-depth recursion, in
which a leaf contributes depth 0 and a mapping contributes 1 plus the
maximum depth of its children, the children of a mapping entry being the
sub-entries of its value list. -/
def specValDepth : YVal → Nat
  | .dict kvs => 1 + specKvsMax kvs
  | .list l => specListMax l
  | _ => 0

/-- Modelled from the spec: maximum depth over a sequence of entries. -/
def specListMax : List YVal → Nat
  | [] => 0
  | v :: rest => max (specValDepth v) (specListMax rest)

/-- Modelled from the spec: maximum depth over the children of a mapping. -/
def specKvsMax : List (String × YVal) → Nat
  | [] => 0
  | kv :: rest => max (specValDepth kv.2) (specKvsMax rest)

end

/-- Modelled from the spec: the reported depth of a navigation outline. -/
def spec_nav_depth (nav : List YVal) : Nat := specListMax nav

/-- The body of `_check_analytics_config`: `config.get('extra', {})`,
`.get('analytics', {})`, then `bool(provider and property)`.  A `none`
configuration models an unreadable or unparsable file; every path on which
Python would raise `AttributeError` (a `.get` on a non-mapping) is caught
by the function's `except` and yields `False`. -/
def check_analytics_config (cfg : Option YVal) : Bool :=
  match cfg with
  | some (.dict kvs) =>
    match (yLookup kvs "extra").getD (.dict []) with
    | .dict ekvs =>
      match (yLookup ekvs "analytics").getD (.dict []) with
      | .dict akvs =>
        optTruthy (yLookup akvs "provider") && optTruthy (yLookup akvs "property")
      | _ => false
    | _ => false
  | _ => false

/-- The `provider`/`property` field of the extras descriptor's analytics
entry, `none` whenever the navigation to it degenerates. -/
def analytics_field (cfg : Option YVal) (k : String) : Option YVal :=
  match cfg with
  | some (.dict kvs) =>
    match (yLookup kvs "extra").getD (.dict []) with
    | .dict ekvs =>
      match (yLookup ekvs "analytics").getD (.dict []) with
      | .dict akvs => yLookup akvs k
      | _ => none
    | _ => none
  | _ => none

/-- Presence flags for the three required configuration fields. -/
structure BuildConfigFields where
  site_name : Bool
  theme : Bool
  nav : Bool

/-- The body of `_verify_build_config`: `field in config` for the three
required fields; a raising membership test (`config` is `None`) or an
unreadable file leaves every flag `False`. -/
def verify_build_config (cfg : Option YVal) : BuildConfigFields :=
  match cfg with
  | none => ⟨false, false, false⟩
  | some v =>
    match pyIn "site_name" v, pyIn "theme" v, pyIn "nav" v with
    | some b1, some b2, some b3 => ⟨b1, b2, b3⟩
    | _, _, _ => ⟨false, false, false⟩

/-- The body of `_check_responsive_design`: looks up
`theme.features` and tests `'navigation.tabs.mobile' in theme_features`;
any raising step is caught and leaves the flag `False`. -/
def check_responsive_design (cfg : Option YVal) : Bool :=
  match cfg with
  | some (.dict kvs) =>
    match (yLookup kvs "theme").getD (.dict []) with
    | .dict tkvs =>
      match pyIn "navigation.tabs.mobile" ((yLookup tkvs "features").getD (.list [])) with
      | some b => b
      | none => false
    | _ => false
  | _ => false

/-- A file-system entry under the document root.  A file carries the
result of reading it: `Except.error` models a file whose open, read or
decode raises (the per-file `except` clauses turn such a file into a
zero contribution). -/
inductive FSEntry where
  | file : String → Except String String → FSEntry
  | dir : String → List FSEntry → FSEntry

/-- Name of an entry. -/
def entryName : FSEntry → String
  | .file n _ => n
  | .dir n _ => n

/-- The `is_dir()` test. -/
def isDirEntry : FSEntry → Bool
  | .file _ _ => false
  | .dir _ _ => true

/-- Lookup of a direct child by name (`docs_path / 'sims'`,
`docs_path / 'glossary.md'`). -/
def findEntry : List FSEntry → String → Option FSEntry
  | [], _ => none
  | e :: rest, n => if entryName e = n then some e else findEntry rest n

mutual

/-- Read results selected by `glob('**/*.md')` below one entry.  The glob
also matches a directory whose name ends in `.md`; opening it raises, so
it appears as an error entry (and the walk still descends into it). -/
def mdOfEntry : FSEntry → List (Except String String)
  | .file n content => if endsWithL ".md".toList n.toList then [content] else []
  | .dir n es =>
    (if endsWithL ".md".toList n.toList then [Except.error "IsADirectoryError"] else []) ++
      mdOfList es

/-- Read results selected by `glob('**/*.md')` below a list of entries. -/
def mdOfList : List FSEntry → List (Except String String)
  | [] => []
  | e :: rest => mdOfEntry e ++ mdOfList rest

end

mutual

/-- Number of entries matched by `glob('**/*.<ext>')` below one entry
(files and directories alike, as `glob` matches both). -/
def extOfEntry (ext : List Char) : FSEntry → Nat
  | .file n _ => if endsWithL ext n.toList then 1 else 0
  | .dir n es => (if endsWithL ext n.toList then 1 else 0) + extOfList ext es

/-- Number of entries matched by `glob('**/*.<ext>')` below a list. -/
def extOfList (ext : List Char) : List FSEntry → Nat
  | [] => 0
  | e :: rest => extOfEntry ext e + extOfList ext rest

end

/-- The word count `_count_words` accumulates over the files of
`glob('**/*.md')`: unreadable files contribute zero via `except`. -/
def count_words_docs (docs : List FSEntry) : Nat := total_words (mdOfList docs)

/-- The sum `_count_admonitions` accumulates over the markdown files. -/
def count_admonitions_docs (docs : List FSEntry) : Nat :=
  ((mdOfList docs).map fun r =>
    match r with
    | .ok s => count_admonitions s
    | .error _ => 0).sum

/-- The sum `_count_code_blocks` accumulates over the markdown files. -/
def count_code_blocks_docs (docs : List FSEntry) : Nat :=
  ((mdOfList docs).map fun r =>
    match r with
    | .ok s => count_code_blocks s
    | .error _ => 0).sum

/-- The immediate children of the `sims` directory, empty when `sims` is
absent or is not a directory (globbing a plain file yields nothing). -/
def sims_children (docs : List FSEntry) : List FSEntry :=
  match findEntry docs "sims" with
  | some (.dir _ es) => es
  | _ => []

/-- The body of `_count_microsims`: immediate child directories of `sims`
whose names do not start with an underscore; 0 when `sims` is absent. -/
def count_microsims (docs : List FSEntry) : Nat :=
  match findEntry docs "sims" with
  | none => 0
  | some (.file _ _) => 0
  | some (.dir _ es) =>
    (es.filter fun e => isDirEntry e && !(isPre ['_'] (entryName e).toList)).length

/-- The body of `_count_glossary_terms`: reads `glossary.md` directly under
the document root; an absent file, a directory of that name, or a failing
read all yield 0 through the existence check and the `except`. -/
def count_glossary_terms (docs : List FSEntry) : Nat :=
  match findEntry docs "glossary.md" with
  | some (.file _ (.ok content)) => count_glossary_content content
  | _ => 0

/-- Number of lines `f.readlines()` returns for a file with this content:
one line per newline, plus a final line when text follows the last
newline. -/
def readlinesCount : List Char → Nat
  | [] => 0
  | [_] => 1
  | c :: c2 :: rest => (if c = '\n' then 1 else 0) + readlinesCount (c2 :: rest)

mutual

/-- Line total of the files matched by `glob('**/*.js')` below one entry.
A directory whose name ends in `.js` is matched too, but opening it
raises and the `except: continue` makes it contribute zero, so only real
files count. -/
def jsLinesEntry : FSEntry → Nat
  | .file n content =>
    if endsWithL ".js".toList n.toList then
      match content with
      | .ok s => readlinesCount s.toList
      | .error _ => 0
    else 0
  | .dir _ es => jsLinesList es

/-- Line total of `glob('**/*.js')` files below a list of entries. -/
def jsLinesList : List FSEntry → Nat
  | [] => 0
  | e :: rest => jsLinesEntry e + jsLinesList rest

end

/-- Complexity histogram of `_analyze_microsim_complexity`. -/
structure ComplexityHisto where
  simple : Nat
  medium : Nat
  complex : Nat

/-- Classification step of `_analyze_microsim_complexity`: fewer than 100
code lines is simple, fewer than 300 medium, otherwise complex. -/
def bumpComplexity (h : ComplexityHisto) (code_lines : Nat) : ComplexityHisto :=
  if code_lines < 100 then ⟨h.simple + 1, h.medium, h.complex⟩
  else if code_lines < 300 then ⟨h.simple, h.medium + 1, h.complex⟩
  else ⟨h.simple, h.medium, h.complex + 1⟩

/-- The loop of `_analyze_microsim_complexity` over `sims_dir.glob('*')`:
non-directories are skipped, every directory — underscore-prefixed or
not — is classified by the recursive line total of its `.js` files. -/
def complexityFold : List FSEntry → ComplexityHisto → ComplexityHisto
  | [], h => h
  | .file _ _ :: rest, h => complexityFold rest h
  | .dir _ ses :: rest, h => complexityFold rest (bumpComplexity h (jsLinesList ses))

/-- The body of `_analyze_microsim_complexity`: all-zero histogram when
`sims` is absent, otherwise the fold over its children. -/
def analyze_microsim_complexity (docs : List FSEntry) : ComplexityHisto :=
  match findEntry docs "sims" with
  | some (.dir _ es) => complexityFold es ⟨0, 0, 0⟩
  | _ => ⟨0, 0, 0⟩

/-- The `basic_metrics` group of the report. -/
structure BasicMetrics where
  markdown_files : Nat
  images : Nat
  word_count : Nat
  microsims : Nat
  glossary_terms : Nat

/-- The `content_structure` group of the report. -/
structure ContentStructure where
  navigation_depth : Nat
  admonitions : Nat
  code_examples : Nat

/-- The `engagement_features` group of the report. -/
structure EngagementFeatures where
  microsim_complexity : ComplexityHisto
  has_analytics : Bool

/-- The `technical_quality` group of the report. -/
structure TechnicalQuality where
  build_config_complete : BuildConfigFields
  responsive_design : Bool

/-- The full report of `analyze`, one field per top-level group. -/
structure MetricsReport where
  basic_metrics : BasicMetrics
  content_structure : ContentStructure
  engagement_features : EngagementFeatures
  technical_quality : TechnicalQuality

/-- The body of `_get_basic_metrics`. -/
def get_basic_metrics (docs : List FSEntry) : BasicMetrics :=
  ⟨(mdOfList docs).length,
   extOfList ".png".toList docs + extOfList ".jpg".toList docs,
   count_words_docs docs,
   count_microsims docs,
   count_glossary_terms docs⟩

/-- The body of `_analyze_content_structure`.  Reading or parsing failures
of the configuration are caught and leave `nav_structure = []`, but the
call `_calculate_nav_depth(nav_structure)` sits outside the `try`, so a
non-iterable `nav` value propagates as an exception. -/
def analyze_content_structure_run (docs : List FSEntry) (cfg : Option YVal) :
    Except String ContentStructure :=
  match calculate_nav_depth_run (nav_structure cfg) with
  | .error e => .error e
  | .ok d => .ok ⟨d, count_admonitions_docs docs, count_code_blocks_docs docs⟩

/-- The body of `_analyze_engagement_features`. -/
def analyze_engagement_features (docs : List FSEntry) (cfg : Option YVal) :
    EngagementFeatures :=
  ⟨analyze_microsim_complexity docs, check_analytics_config cfg⟩

/-- The body of `_analyze_technical_quality`. -/
def analyze_technical_quality (cfg : Option YVal) : TechnicalQuality :=
  ⟨verify_build_config cfg, check_responsive_design cfg⟩

/-- The body of `analyze`: builds the four report groups; an exception
escaping any of the group analyzers aborts the whole report. -/
def analyze_run (docs : List FSEntry) (cfg : Option YVal) :
    Except String MetricsReport :=
  match analyze_content_structure_run docs cfg with
  | .error e => .error e
  | .ok cs =>
    .ok ⟨get_basic_metrics docs, cs, analyze_engagement_features docs cfg,
         analyze_technical_quality cfg⟩

mutual

/-- Modelled from the spec: searching, line by line, for the next line
consisting exactly of three hyphens; returns the text after that line.
The scanner is positioned at a line start. -/
def afterCloseLineScan : List Char → Option (List Char)
  | [] => none
  | ['-', '-', '-'] => some []
  | '-' :: '-' :: '-' :: c :: rest =>
    if c = '\n' then some rest else afterCloseSkip rest
  | '\n' :: rest => afterCloseLineScan rest
  | _ :: rest => afterCloseSkip rest

/-- Modelled from the spec: inside a line already known not to be the
closing delimiter. -/
def afterCloseSkip : List Char → Option (List Char)
  | [] => none
  | c :: rest => if c = '\n' then afterCloseLineScan rest else afterCloseSkip rest

end

/-- Modelled from the spec: removal of a metadata block delimited by a
line of three hyphens at the start and the next line of three hyphens —
the delimiters are whole lines, unlike the code's substring anchors. -/
def spec_meta_strip (s : List Char) : List Char :=
  match s with
  | '-' :: '-' :: '-' :: '\n' :: rest =>
    match afterCloseLineScan rest with
    | some t => t
    | none => s
  | _ => s

/-- Modelled from the spec: the word count with the line-delimited
metadata removal, the other stripping stages being those of the code. -/
def spec_count_words (s : String) : Nat :=
  countTokens (pyStrip (collapseWS (urlOut (tagOut (inlineOut (fenceOut (spec_meta_strip s.toList)))))))

/-- Modelled from the spec: number of lines that begin with `!!!`, the
final line counting whether or not a newline terminates it. -/
def spec_line_admonitions (s : String) : Nat :=
  (linesAll s.toList).countP (fun l => bang3 l)

/-- Modelled from the spec: a line starting with exactly four `#`
characters followed by whitespace and at least one non-whitespace
character. -/
def spec_glossary_line : List Char → Bool
  | '#' :: '#' :: '#' :: '#' :: rest =>
    !(rest.takeWhile isPySpace).isEmpty && !(rest.dropWhile isPySpace).isEmpty
  | _ => false

/-- Modelled from the spec: number of level-4-heading lines of a glossary
content. -/
def spec_glossary_lines (s : String) : Nat :=
  (linesAll s.toList).countP spec_glossary_line

/-- Helper: prepending a newline starts a fresh empty terminated line. -/
theorem linesTerm_cons_nl (t : List Char) : linesTerm ('\n' :: t) = [] :: linesTerm t := by
  simp [linesTerm, linesAux]

/-- Helper: prepending an ordinary character to a text with no terminated
line leaves it without terminated lines. -/
theorem linesTerm_cons_nonNl_nil (c : Char) (t : List Char) (hc : ¬ c = '\n')
    (h : linesTerm t = []) : linesTerm (c :: t) = [] := by
  unfold linesTerm at *
  simp only [linesAux, if_neg hc]
  rcases hp : linesAux t with ⟨ls, cur⟩
  rw [hp] at h
  simp at h
  subst h
  rfl

/-- Helper: prepending an ordinary character extends the first terminated
line. -/
theorem linesTerm_cons_nonNl_cons (c : Char) (t : List Char) (hc : ¬ c = '\n')
    (l : List Char) (ls : List (List Char)) (h : linesTerm t = l :: ls) :
    linesTerm (c :: t) = (c :: l) :: ls := by
  unfold linesTerm at *
  simp only [linesAux, if_neg hc]
  rcases hp : linesAux t with ⟨ls', cur⟩
  rw [hp] at h
  simp at h
  subst h
  rfl

/-- Helper: the empty line holds no `!!!`. -/
theorem hasTriple_nil : hasTriple [] = false := rfl

/-- Helper: simultaneous characterization of the two admonition-scanner
states — the scanner counts exactly the newline-terminated lines that
contain `!!!`, and the after-marker state adds the pending count of the
current line. -/
theorem adm_linesTerm_aux :
    ∀ (n : Nat) (s : List Char), s.length ≤ n →
      admScan s = (linesTerm s).countP hasTriple ∧
      admLine s = (if (linesTerm s).isEmpty then 0
                   else 1 + ((linesTerm s).tail.countP hasTriple)) := by
  intro n
  induction n with
  | zero =>
    intro s hs
    have hse : s = [] := List.length_eq_zero.mp (Nat.le_zero.mp hs)
    subst hse
    exact ⟨rfl, rfl⟩
  | succ n ih =>
    intro s hs
    have hQ : admLine s = (if (linesTerm s).isEmpty then 0
                   else 1 + ((linesTerm s).tail.countP hasTriple)) := by
      match s, hs with
      | [], _ => rfl
      | c :: rest, hs =>
        have hr := ih rest (by simp at hs; omega)
        by_cases hc : c = '\n'
        · subst hc
          rw [linesTerm_cons_nl]
          simp [admLine, hr.1]
        · rw [admLine, if_neg hc, hr.2]
          cases h : linesTerm rest with
          | nil => rw [linesTerm_cons_nonNl_nil c rest hc h]
          | cons l ls => rw [linesTerm_cons_nonNl_cons c rest hc l ls h]; simp
    refine ⟨?_, hQ⟩
    match s, hs with
    | [], _ => rfl
    | [c], _ =>
      by_cases hc : c = '\n'
      · subst hc
        rw [linesTerm_cons_nl]
        simp [admScan, hasTriple, linesTerm, linesAux]
      · rw [linesTerm_cons_nonNl_nil c [] hc rfl]
        simp [admScan]
    | [c, c2], _ =>
      have base : admScan [c, c2] = 0 := rfl
      rw [base]
      by_cases hc2 : c2 = '\n'
      · subst hc2
        have h2 : linesTerm ['\n'] = [[]] := rfl
        by_cases hc : c = '\n'
        · subst hc
          rw [linesTerm_cons_nl, h2]
          simp [hasTriple]
        · rw [linesTerm_cons_nonNl_cons c ['\n'] hc [] [] h2]
          simp [hasTriple, isPre]
      · have h2 : linesTerm [c2] = [] := linesTerm_cons_nonNl_nil c2 [] hc2 rfl
        by_cases hc : c = '\n'
        · subst hc
          rw [linesTerm_cons_nl, h2]
          simp [hasTriple]
        · rw [linesTerm_cons_nonNl_nil c [c2] hc h2]
          simp
    | c :: c2 :: c3 :: rest, hs =>
      have h1 := ih (c2 :: c3 :: rest) (by simp at hs ⊢; omega)
      have h2 := ih rest (by simp at hs ⊢; omega)
      rw [admScan]
      by_cases htr : (c = '!' && c2 = '!' && c3 = '!') = true
      · rw [if_pos htr]
        simp only [Bool.and_eq_true, decide_eq_true_eq] at htr
        obtain ⟨⟨hc, hc2⟩, hc3⟩ := htr
        subst hc; subst hc2; subst hc3
        rw [h2.2]
        cases h : linesTerm rest with
        | nil =>
          rw [linesTerm_cons_nonNl_nil _ _ (by decide)
                (linesTerm_cons_nonNl_nil _ _ (by decide)
                  (linesTerm_cons_nonNl_nil _ _ (by decide) h))]
          simp
        | cons l ls =>
          rw [linesTerm_cons_nonNl_cons _ _ (by decide) _ _
                (linesTerm_cons_nonNl_cons _ _ (by decide) _ _
                  (linesTerm_cons_nonNl_cons _ _ (by decide) _ _ h))]
          rw [List.countP_cons]
          have ht : hasTriple ('!' :: '!' :: '!' :: l) = true := by
            simp [hasTriple, isPre]
          rw [ht]
          simp [Nat.add_comm]
      · rw [if_neg htr, h1.1]
        by_cases hc : c = '\n'
        · subst hc
          rw [linesTerm_cons_nl, List.countP_cons, hasTriple_nil]
          simp
        · cases h : linesTerm (c2 :: c3 :: rest) with
          | nil => rw [linesTerm_cons_nonNl_nil c _ hc h]
          | cons l ls =>
            rw [linesTerm_cons_nonNl_cons c _ hc l ls h]
            have hhead : hasTriple (c :: l) = hasTriple l := by
              have hnotri : ¬(c = '!' ∧ c2 = '!' ∧ c3 = '!') := by
                intro ⟨a, b, d⟩
                exact htr (by simp [a, b, d])
              by_cases hc2 : c2 = '\n'
              · subst hc2
                rw [linesTerm_cons_nl] at h
                obtain ⟨hl, -⟩ := List.cons.inj h.symm
                subst hl
                simp [hasTriple, isPre]
              · cases h3 : linesTerm (c3 :: rest) with
                | nil =>
                  rw [linesTerm_cons_nonNl_nil c2 _ hc2 h3] at h
                  exact absurd h (by simp)
                | cons l2 ls2 =>
                  rw [linesTerm_cons_nonNl_cons c2 _ hc2 l2 ls2 h3] at h
                  obtain ⟨hl, -⟩ := List.cons.inj h.symm
                  subst hl
                  by_cases hc3 : c3 = '\n'
                  · subst hc3
                    rw [linesTerm_cons_nl] at h3
                    obtain ⟨hl2, -⟩ := List.cons.inj h3.symm
                    subst hl2
                    simp [hasTriple, isPre]
                  · cases h4 : linesTerm rest with
                    | nil =>
                      rw [linesTerm_cons_nonNl_nil c3 _ hc3 h4] at h3
                      exact absurd h3 (by simp)
                    | cons l3 ls3 =>
                      rw [linesTerm_cons_nonNl_cons c3 _ hc3 l3 ls3 h4] at h3
                      obtain ⟨hl2, -⟩ := List.cons.inj h3.symm
                      subst hl2
                      show (isPre ['!', '!', '!'] (c :: c2 :: c3 :: l3) ||
                        hasTriple (c2 :: c3 :: l3)) = hasTriple (c2 :: c3 :: l3)
                      have hfalse : isPre ['!', '!', '!'] (c :: c2 :: c3 :: l3) = false := by
                        by_contra hcon
                        rw [Bool.not_eq_false] at hcon
                        simp only [isPre, Bool.and_eq_true, decide_eq_true_eq] at hcon
                        exact hnotri (by tauto)
                      rw [hfalse]
                      simp
            rw [List.countP_cons, List.countP_cons, hhead]

/-- Claim C4 (amended): the admonition count of a document equals the
number of its newline-terminated lines that contain `!!!` anywhere (one
count per such line); a `!!!` occurring mid-line is counted, and a marker
on the final line without a trailing newline is not counted. -/
theorem c4_admonitions_amended (s : String) :
    count_admonitions s = (linesTerm s.toList).countP hasTriple :=
  (adm_linesTerm_aux s.toList.length s.toList (Nat.le_refl _)).1

/-- Claim C4, counterexample: the code counts a mid-line `!!!` (which the
claim excludes) and does not count a final-line marker lacking a newline
(which the claim includes). -/
theorem c4_counterexample :
    count_admonitions "x !!!a\n" = 1 ∧ spec_line_admonitions "x !!!a\n" = 0 ∧
    count_admonitions "!!!note" = 0 ∧ spec_line_admonitions "!!!note" = 1 :=
  ⟨rfl, rfl, rfl, rfl⟩

/-- Claim C1, counterexample: on a document whose first line is not
exactly three hyphens but which starts with the substring three hyphens,
the code strips up to the next occurrence of the substring (2 words
remain), while the line-delimited reading of the claim strips nothing
(4 words remain). -/
theorem c1_counterexample :
    count_words "---a\nb---\nc d" = 2 ∧ spec_count_words "---a\nb---\nc d" = 4 :=
  ⟨rfl, rfl⟩

/-- Claim C1 (amended): word counting strips, in order, a leading
metadata block reaching from a `---` at the very start of the content to
the next occurrence of the substring `---` (the delimiters need not be
whole lines), then fenced code blocks, inline code spans, markup tags and
URLs, collapses whitespace and splits; the document
`---\ntitle: x\n---\nHello world` contributes exactly 2 words. -/
theorem c1_word_count_amended :
    (∀ s : String, count_words s =
      countTokens (pyStrip (collapseWS (urlOut (tagOut (inlineOut (fenceOut
        (stripFrontMatter s.toList)))))))) ∧
    count_words "---\ntitle: x\n---\nHello world" = 2 :=
  ⟨fun _ => rfl, rfl⟩

/-- Claim C2: the total word count is a sum of per-document counts, so it
is invariant under any permutation of the document list. -/
theorem c2_word_count_reorder (l1 l2 : List (Except String String)) (h : l1.Perm l2) :
    total_words l1 = total_words l2 :=
  List.Perm.sum_eq (h.map doc_words)

/-- Claim C2, witness: a concrete transposition of a three-document list,
one document being an unreadable file. -/
theorem c2_witness :
    ([Except.ok "alpha beta", Except.error "boom", Except.ok "gamma"] :
        List (Except String String)).Perm
      [Except.error "boom", Except.ok "alpha beta", Except.ok "gamma"] ∧
    total_words [Except.ok "alpha beta", Except.error "boom", Except.ok "gamma"] =
      total_words [Except.error "boom", Except.ok "alpha beta", Except.ok "gamma"] :=
  ⟨List.Perm.swap _ _ _, c2_word_count_reorder _ _ (List.Perm.swap _ _ _)⟩

/-- The navigation outline of the claim, `[{"A": [{"B": "page.md"}]}]`,
as a parsed value. -/
def navOutlineExample : List YVal :=
  [YVal.dict [("A", YVal.list [YVal.dict [("B", YVal.str "page.md")]])]]

/-- Claim C3: on the outline `[{"A": [{"B": "page.md"}]}]` the code
computes navigation depth 1, not the 2 demanded by the claim and the
specification, because `get_depth` treats the list value under `A` as a
leaf and never descends into it; the intended recursion (modelled from
the spec) gives 2, and the empty outline gives 0 as claimed. -/
theorem c3_nav_depth_code_bug :
    calculate_nav_depth navOutlineExample = 1 ∧
    spec_nav_depth navOutlineExample = 2 ∧
    calculate_nav_depth [] = 0 :=
  ⟨rfl, rfl, rfl⟩

/-- Claim C5: the microsim count is 0 when `sims` is absent, and otherwise
counts exactly the immediate child directories of `sims` whose names do
not begin with an underscore. -/
theorem c5_count_microsims (docs : List FSEntry) :
    (findEntry docs "sims" = none → count_microsims docs = 0) ∧
    count_microsims docs =
      (sims_children docs).countP
        (fun e => isDirEntry e && !(isPre ['_'] (entryName e).toList)) := by
  constructor
  · intro h
    unfold count_microsims
    rw [h]
  · unfold count_microsims sims_children
    cases h : findEntry docs "sims" with
    | none => rfl
    | some e =>
      cases e with
      | file n c => rfl
      | dir n es => rw [List.countP_eq_length_filter]

/-- Claim C5, witness: an empty document root has no `sims` directory and
microsim count 0. -/
theorem c5_witness :
    findEntry ([] : List FSEntry) "sims" = none ∧ count_microsims [] = 0 :=
  ⟨rfl, (c5_count_microsims []).1 rfl⟩

/-- Claim C6, counterexample: a bare `#### ` line followed by a line
starting with a non-whitespace character is counted by the code (the
`\s+` of the pattern crosses the newline), while the claim counts no line
of that document. -/
theorem c6_counterexample :
    count_glossary_content "#### \nA" = 1 ∧ spec_glossary_lines "#### \nA" = 0 :=
  ⟨rfl, rfl⟩

/-- Claim C6 (amended): absence of `glossary.md` yields 0; a document of
two level-4 headings yields 2; a five-`#` heading is not counted; a bare
`#### ` line followed only by whitespace is not counted; but a bare
`#### ` line is counted once when a non-whitespace character follows the
whitespace run, even on a later line. -/
theorem c6_glossary_amended :
    (∀ docs : List FSEntry, findEntry docs "glossary.md" = none →
      count_glossary_terms docs = 0) ∧
    count_glossary_content "#### Term\n#### Other\nplain text\n" = 2 ∧
    count_glossary_content "##### Five\n" = 0 ∧
    count_glossary_content "#### \n \n" = 0 ∧
    count_glossary_content "#### \nA" = 1 := by
  refine ⟨?_, rfl, rfl, rfl, rfl⟩
  intro docs h
  unfold count_glossary_terms
  rw [h]

/-- Claim C6, witness: an empty document root has no glossary and 0
glossary terms. -/
theorem c6_witness :
    findEntry ([] : List FSEntry) "glossary.md" = none ∧ count_glossary_terms [] = 0 :=
  ⟨rfl, c6_glossary_amended.1 [] rfl⟩

/-- A simulation directory with a `.js` line total strictly below 100. -/
def isSimpleSim (e : FSEntry) : Bool := isDirEntry e && decide (jsLinesEntry e < 100)

/-- A simulation directory with a `.js` line total between 100 and 299
inclusive. -/
def isMediumSim (e : FSEntry) : Bool :=
  isDirEntry e && decide (100 ≤ jsLinesEntry e ∧ jsLinesEntry e ≤ 299)

/-- A simulation directory with a `.js` line total of at least 300. -/
def isComplexSim (e : FSEntry) : Bool := isDirEntry e && decide (300 ≤ jsLinesEntry e)

/-- Helper: the complexity fold accumulates, onto its starting histogram,
one count per child directory in the bucket given by its recursive `.js`
line total. -/
theorem complexityFold_spec (es : List FSEntry) (h : ComplexityHisto) :
    complexityFold es h =
      ⟨h.simple + es.countP isSimpleSim, h.medium + es.countP isMediumSim,
       h.complex + es.countP isComplexSim⟩ := by
  induction es generalizing h with
  | nil => simp [complexityFold]
  | cons e rest ih =>
    cases e with
    | file n c =>
      rw [complexityFold, ih]
      simp [List.countP_cons, isSimpleSim, isMediumSim, isComplexSim, isDirEntry]
    | dir n ses =>
      rw [complexityFold, ih]
      have hj : jsLinesEntry (.dir n ses) = jsLinesList ses := rfl
      simp only [List.countP_cons, isSimpleSim, isMediumSim, isComplexSim, isDirEntry,
        Bool.true_and, hj, bumpComplexity, ComplexityHisto.mk.injEq, decide_eq_true_eq]
      split_ifs <;> refine ⟨?_, ?_, ?_⟩ <;> dsimp only <;> omega

/-- A document root whose single simulation holds one 250-line script. -/
def docsWith250 : List FSEntry :=
  [FSEntry.dir "sims" [FSEntry.dir "demo"
    [FSEntry.file "sketch.js" (Except.ok (String.mk (List.replicate 250 '\n')))]]]

/-- Claim C7: absence of `sims` yields the all-zero histogram; otherwise
every child directory of `sims` is tallied into exactly the bucket of its
recursive script line total — strictly below 100 simple, 100 to 299
inclusive medium, 300 or more complex — and a directory holding one
250-line script lands in the medium bucket. -/
theorem c7_complexity (docs : List FSEntry) :
    (findEntry docs "sims" = none → analyze_microsim_complexity docs = ⟨0, 0, 0⟩) ∧
    analyze_microsim_complexity docs =
      ⟨(sims_children docs).countP isSimpleSim,
       (sims_children docs).countP isMediumSim,
       (sims_children docs).countP isComplexSim⟩ ∧
    analyze_microsim_complexity docsWith250 = ⟨0, 1, 0⟩ := by
  refine ⟨?_, ?_, ?_⟩
  · intro h
    unfold analyze_microsim_complexity
    rw [h]
  · unfold analyze_microsim_complexity sims_children
    cases h : findEntry docs "sims" with
    | none => rfl
    | some e =>
      cases e with
      | file n c => rfl
      | dir n es =>
        show complexityFold es ⟨0, 0, 0⟩ =
          ⟨es.countP isSimpleSim, es.countP isMediumSim, es.countP isComplexSim⟩
        rw [complexityFold_spec]
        simp
  · rfl

/-- Claim C7, witness: the absent-`sims` case at the empty document root. -/
theorem c7_witness :
    findEntry ([] : List FSEntry) "sims" = none ∧
    analyze_microsim_complexity [] = ⟨0, 0, 0⟩ :=
  ⟨rfl, (c7_complexity []).1 rfl⟩

/-- A document root whose `sims` directory holds only an
underscore-prefixed child directory. -/
def docsUnderscoreSim : List FSEntry := [FSEntry.dir "sims" [FSEntry.dir "_templates" []]]

/-- Helper: each child directory falls in exactly one bucket, so the three
bucket predicates together count the child directories. -/
theorem bucket_sum_eq (es : List FSEntry) :
    es.countP isSimpleSim + es.countP isMediumSim + es.countP isComplexSim =
      es.countP isDirEntry := by
  induction es with
  | nil => simp
  | cons e rest ih =>
    simp only [List.countP_cons]
    cases e with
    | file n c =>
      simp only [isSimpleSim, isMediumSim, isComplexSim, isDirEntry, Bool.false_and]
      simp only [if_neg (by simp : ¬(false = true))]
      omega
    | dir n ses =>
      simp only [isSimpleSim, isMediumSim, isComplexSim, isDirEntry, Bool.true_and,
        decide_eq_true_eq]
      split_ifs <;> omega

/-- Claim C10: the three complexity buckets together count all immediate
child directories of `sims`, underscore-prefixed ones included, and on a
root whose only simulation directory is underscore-prefixed the bucket
total is 1 while the reported microsim count is 0 — the total strictly
exceeds the count. -/
theorem c10_bucket_total :
    (∀ docs : List FSEntry,
      (analyze_microsim_complexity docs).simple + (analyze_microsim_complexity docs).medium +
        (analyze_microsim_complexity docs).complex = (sims_children docs).countP isDirEntry) ∧
    (analyze_microsim_complexity docsUnderscoreSim).simple +
      (analyze_microsim_complexity docsUnderscoreSim).medium +
      (analyze_microsim_complexity docsUnderscoreSim).complex = 1 ∧
    count_microsims docsUnderscoreSim = 0 := by
  refine ⟨?_, rfl, rfl⟩
  intro docs
  unfold analyze_microsim_complexity sims_children
  cases h : findEntry docs "sims" with
  | none => rfl
  | some e =>
    cases e with
    | file n c => rfl
    | dir n es =>
      show (complexityFold es ⟨0, 0, 0⟩).simple + (complexityFold es ⟨0, 0, 0⟩).medium +
          (complexityFold es ⟨0, 0, 0⟩).complex = es.countP isDirEntry
      rw [complexityFold_spec]
      simpa using bucket_sum_eq es

/-- Claim C8: the analytics flag is true exactly when both the provider
and the property of the extras descriptor's analytics entry are present
and truthy (non-empty), and a failed configuration parse yields false. -/
theorem c8_analytics (cfg : Option YVal) :
    (check_analytics_config cfg = true ↔
      optTruthy (analytics_field cfg "provider") = true ∧
      optTruthy (analytics_field cfg "property") = true) ∧
    check_analytics_config none = false := by
  refine ⟨?_, rfl⟩
  cases cfg with
  | none => simp [check_analytics_config, analytics_field, optTruthy]
  | some v =>
    cases v with
    | null => simp [check_analytics_config, analytics_field, optTruthy]
    | str s => simp [check_analytics_config, analytics_field, optTruthy]
    | list l => simp [check_analytics_config, analytics_field, optTruthy]
    | dict kvs =>
      unfold check_analytics_config analytics_field
      dsimp only
      rcases hx : (yLookup kvs "extra").getD (.dict []) with _ | s | l | ekvs
      · simp [optTruthy]
      · simp [optTruthy]
      · simp [optTruthy]
      · dsimp only
        rcases hy : (yLookup ekvs "analytics").getD (.dict []) with _ | s2 | l2 | akvs
        · simp [optTruthy]
        · simp [optTruthy]
        · simp [optTruthy]
        · dsimp only
          exact Iff.of_eq (Bool.and_eq_true _ _)

/-- Claim C9: the report is not produced on every input — a configuration
that parses to a mapping whose `nav` key holds a null value makes
`_calculate_nav_depth` iterate `None` outside any `try`, so `analyze`
raises; the claimed error containment does hold for the modelled parts it
covers: an unreadable document contributes zero without aborting the
total, and a configuration parse failure degrades the content-structure
group to navigation depth 0. -/
theorem c9_analyze_uncaught :
    analyze_run [] (some (.dict [("nav", YVal.null)])) =
      Except.error "TypeError: NoneType object is not iterable" ∧
    calculate_nav_depth_run YVal.null =
      Except.error "TypeError: NoneType object is not iterable" ∧
    (∀ (pre post : List (Except String String)) (e : String),
      total_words (pre ++ Except.error e :: post) = total_words (pre ++ post)) ∧
    (∀ docs : List FSEntry, analyze_content_structure_run docs none =
      Except.ok ⟨0, count_admonitions_docs docs, count_code_blocks_docs docs⟩) := by
  refine ⟨rfl, rfl, ?_, fun docs => rfl⟩
  intro pre post e
  simp [total_words, doc_words]
